import Mathlib

/-!
# Verification of the Optimism transaction-lifecycle handler

Shallow embedding of `src/crates/revm/src/optimism/handler_register.rs`.
Machine integers are modelled as `Nat` (U256 values live below `U256MOD`,
u64 values below `U64MOD`); wrapping, saturating and checked arithmetic are
made explicit.  Components of the repository that are not under `src/`
(the `Gas` structure, `L1BlockInfo` cost functions, the mainnet inner
handlers, `env.validate_block_env` / `env.validate_tx`) are modelled from
the spec, each with a doc comment saying so.
-/

namespace OpHandler

/-- Modulus of 256-bit machine words (`U256`). -/
def U256MOD : Nat := 2 ^ 256

/-- Largest `U256` value. -/
def U256MAX : Nat := U256MOD - 1

/-- Largest `u64` value. -/
def U64MAX : Nat := 2 ^ 64 - 1

/-- Wrapping 256-bit addition, used for the `+=` operator on `U256`. -/
def addW (a b : Nat) : Nat := (a + b) % U256MOD

/-- Saturating 256-bit addition (`U256::saturating_add`). -/
def satAdd (a b : Nat) : Nat := min (a + b) U256MAX

/-- Saturating 64-bit addition (`u64::saturating_add`). -/
def satAdd64 (a b : Nat) : Nat := min (a + b) U64MAX

/-- Checked 256-bit addition (`U256::checked_add`). -/
def checkedAdd (a b : Nat) : Option Nat :=
  if a + b < U256MOD then some (a + b) else none

/-- Checked 256-bit multiplication (`U256::checked_mul`). -/
def checkedMul (a b : Nat) : Option Nat :=
  if a * b < U256MOD then some (a * b) else none

/-! ## Data model -/

/-- The `OptimismFields` sub-record of the transaction environment. -/
structure OptimismFields where
  source_hash : Option Nat
  mint : Option Nat
  is_system_transaction : Option Bool
  enveloped_tx : Option (List Nat)
  deriving Repr, DecidableEq

/-- Transaction environment: the fields the Optimism handler consults. -/
structure TxEnv where
  caller : Nat
  gas_limit : Nat
  gas_price : Nat
  value : Nat
  nonce : Option Nat
  optimism : OptimismFields
  deriving Repr, DecidableEq

/-- Chain configuration flags consulted by the handler. -/
structure CfgEnv where
  balance_check_disabled : Bool
  gas_refund_disabled : Bool
  eip3607_disabled : Bool
  deriving Repr, DecidableEq

/-- Block environment: the handler reads only `basefee`. -/
structure BlockEnv where
  basefee : Nat
  deriving Repr, DecidableEq

/-- The per-transaction environment. -/
structure Env where
  cfg : CfgEnv
  block : BlockEnv
  tx : TxEnv
  deriving Repr, DecidableEq

/-- Fork gate: the outcomes of `SPEC::enabled(...)` for the fork ids the
embedded handler code consults (`SpecId` forks are totally ordered in the
source, so each later flag implies the earlier ones in any real
instantiation; the theorems do not depend on that). -/
structure SpecF where
  regolith : Bool
  london : Bool
  cancun : Bool
  deriving Repr, DecidableEq

/-- Account info: balance (`U256`) and nonce (`u64`). -/
structure AccountInfo where
  balance : Nat
  nonce : Nat
  deriving Repr, DecidableEq

/-- An account in a state map: info plus the touched status flag.
`Account::from(info)` produces an untouched account; `mark_touch` sets the
flag. -/
structure Account where
  info : AccountInfo
  touched : Bool
  deriving Repr, DecidableEq

/-- Modelled from the spec: the `Gas` structure of the interpreter crate
(not under `src/`): fields `limit`, `remaining`, `refunded`, with derived
`spent = limit - remaining`. -/
structure Gas where
  limit : Nat
  remaining : Nat
  refunded : Int
  deriving Repr, DecidableEq

/-- Derived gas spent: `limit - remaining` (truncated `Nat` subtraction,
matching unsigned machine subtraction where `remaining ≤ limit`). -/
def Gas.spent (g : Gas) : Nat := g.limit - g.remaining

/-- Modelled from the spec: `Gas::new_spent(limit)` is a gas record with all
gas consumed and zero refund. -/
def Gas.new_spent (limit : Nat) : Gas := ⟨limit, 0, 0⟩

/-- Modelled from the spec: `erase_cost(n)` restores `n` into `remaining`. -/
def Gas.erase_cost (g : Gas) (n : Nat) : Gas :=
  { g with remaining := g.remaining + n }

/-- Modelled from the spec: `record_refund(n)` adds `n` to `refunded`. -/
def Gas.record_refund (g : Gas) (n : Int) : Gas :=
  { g with refunded := g.refunded + n }

/-- Modelled from the spec: `set_final_refund(london)` caps `refunded` at
`spent / 5` when London is active and `spent / 2` otherwise. -/
def Gas.set_final_refund (g : Gas) (london : Bool) : Gas :=
  { g with refunded := min g.refunded ((g.spent / (if london then 5 else 2) : Nat) : Int) }

/-- The instruction-result families distinguished by the handler's match on
`frame_result.interpreter_result().result`: the `return_ok!` family, the
`return_revert!` family, and everything else (the halt family). -/
inductive IResult
  | ok
  | revert
  | halt
  deriving Repr, DecidableEq

/-- The transaction-class error payloads (`InvalidTransaction`, including
the Optimism variants) produced or propagated by the embedded handlers.
`other` stands for the remaining variants (block-env and tx-env validation
errors of the base EVM, outside `src/`). -/
inductive TxErr
  | nonceTooHigh (tx state : Nat)
  | nonceTooLow (tx state : Nat)
  | rejectCallerWithCode
  | lackOfFundForMaxFee (fee balance : Nat)
  | overflowPaymentInTransaction
  | depositSystemTxPostRegolith
  | haltedDepositPostRegolith
  | other (n : Nat)
  deriving Repr, DecidableEq

/-- `EVMError`: transaction-class, database, or custom (internal) errors.
Database error payloads are abstracted to `Nat`. -/
inductive EvmErr
  | transaction (t : TxErr)
  | database (e : Nat)
  | custom (s : String)
  deriving Repr, DecidableEq

/-- Decidable equality for `Except`, used to evaluate concrete pipeline
outcomes. -/
instance instDecEqExcept {ε α : Type} [DecidableEq ε] [DecidableEq α] :
    DecidableEq (Except ε α) := fun a b =>
  match a, b with
  | .ok x, .ok y =>
    if h : x = y then .isTrue (by rw [h]) else
      .isFalse (by intro hc; cases hc; exact h rfl)
  | .error x, .error y =>
    if h : x = y then .isTrue (by rw [h]) else
      .isFalse (by intro hc; cases hc; exact h rfl)
  | .ok _, .error _ => .isFalse (by intro hc; cases hc)
  | .error _, .ok _ => .isFalse (by intro hc; cases hc)

/-- Outcome of a fallible handler step: a value, a returned `EVMError`, or a
Rust panic (from `Option::expect`) with its message.  A panic aborts the
process; it is not a returned error. -/
inductive Outcome (α : Type)
  | ok (a : α)
  | err (e : EvmErr)
  | panic (msg : String)
  deriving Repr, DecidableEq

/-- True exactly when an outcome is a returned `EVMError::Custom`. -/
def Outcome.isCustomErr {α : Type} : Outcome α → Bool
  | .err (.custom _) => true
  | _ => false

/-- True exactly when an outcome is a panic. -/
def Outcome.isPanic {α : Type} : Outcome α → Bool
  | .panic _ => true
  | _ => false

/-- Modelled from the spec: `L1BlockInfo` (outside `src/`), represented by
the values of its three cost functions for the transaction at hand:
`calculate_tx_l1_cost(envelope, spec)` as `tx_l1_cost`,
`operator_fee_charge(envelope, gas, spec)` as a function of the `gas`
argument, and `operator_fee_refund(gas, spec)` as `operator_fee_refund`. -/
structure L1BlockInfo where
  tx_l1_cost : Nat
  operator_fee_charge : Nat → Nat
  operator_fee_refund : Nat

/-! ## Execution — last_frame_return -/

/-- Embedding of `last_frame_return` (handler_register.rs lines 191-254).
Saves `remaining` and `refunded`, overwrites the gas with
`Gas::new_spent(tx_gas_limit)`, then adjusts by outcome family, deposit
flag, system flag and the Regolith gate.  The function always returns
`Ok(())` in the source; its effect is the returned `Gas`. -/
def last_frame_return (spec : SpecF) (env : Env) (instruction_result : IResult)
    (gas0 : Gas) : Gas :=
  let is_deposit := env.tx.optimism.source_hash.isSome
  let tx_system := env.tx.optimism.is_system_transaction
  let tx_gas_limit := env.tx.gas_limit
  let is_regolith := spec.regolith
  let remaining := gas0.remaining
  let refunded := gas0.refunded
  let gas := Gas.new_spent tx_gas_limit
  match instruction_result with
  | .ok =>
    if !is_deposit || is_regolith then
      (gas.erase_cost remaining).record_refund refunded
    else if is_deposit && tx_system.getD false then
      gas.erase_cost tx_gas_limit
    else
      gas
  | .revert =>
    if !is_deposit || is_regolith then gas.erase_cost remaining else gas
  | .halt => gas

/-! ## Post-execution — refund -/

/-- Embedding of `refund` (handler_register.rs lines 258-274): record the
EIP-7702 refund, then finalize unless the cfg flag disables refunds or the
transaction is a pre-Regolith deposit. -/
def refund (spec : SpecF) (env : Env) (gas : Gas) (eip7702_refund : Int) : Gas :=
  let gas := gas.record_refund eip7702_refund
  let is_deposit := env.tx.optimism.source_hash.isSome
  let is_regolith := spec.regolith
  let is_gas_refund_disabled :=
    env.cfg.gas_refund_disabled || (is_deposit && !is_regolith)
  if !is_gas_refund_disabled then gas.set_final_refund spec.london else gas

/-! ## Validation — environment -/

/-- Embedding of `validate_env` (handler_register.rs lines 46-65).
`blockV` and `txV` are modelled from the spec: the results of
`env.validate_block_env::<SPEC>()` and `env.validate_tx::<SPEC>()`, base-EVM
functions outside `src/` (`none` = passed, `some e` = the error they
return).  Deposits short-circuit before either runs. -/
def validate_env (spec : SpecF) (env : Env) (blockV txV : Option EvmErr) :
    Outcome Unit :=
  if env.tx.optimism.source_hash.isSome then .ok () else
  match blockV with
  | some e => .err e
  | none =>
    if env.tx.optimism.is_system_transaction.getD false && spec.regolith then
      .err (.transaction .depositSystemTxPostRegolith)
    else
      match txV with
      | some e => .err e
      | none => .ok ()

/-! ## Validation — against state -/

/-- The checked balance-check computation of `validate_tx_against_state`
(handler_register.rs lines 155-168):
`gas_limit·gas_price + value + tx_l1_cost + operator_fee_charge`, plus the
max blob data fee when Cancun is active, each step checked. -/
def balance_check_val (spec : SpecF) (env : Env) (lb : L1BlockInfo)
    (data_fee : Nat) : Option Nat :=
  let gas_limit := env.tx.gas_limit
  let bc := (checkedMul gas_limit env.tx.gas_price).bind fun gas_cost =>
    (checkedAdd gas_cost env.tx.value).bind fun total_cost =>
    (checkedAdd total_cost lb.tx_l1_cost).bind fun total_cost =>
    checkedAdd total_cost (lb.operator_fee_charge gas_limit)
  if spec.cancun then bc.bind fun b => checkedAdd b data_fee else bc

/-- Embedding of `validate_tx_against_state` (handler_register.rs lines
68-187).  External pieces are passed in: `fetch` is the result of
`L1BlockInfo::try_fetch` on the database (used only when `l1_block_info` is
`none`); `code_empty` / `code_eip7702` describe the caller's loaded
bytecode; `caller` is the caller's account info; `data_fee` is
`env.calc_max_data_fee().unwrap_or_default()`.  The returned value is the
caller's balance after validation (raised to the balance check when the
`balance_check_disabled` cfg flag absorbs a shortfall). -/
def validate_tx_against_state (spec : SpecF) (env : Env)
    (l1_block_info : Option L1BlockInfo) (fetch : Except Nat L1BlockInfo)
    (code_empty code_eip7702 : Bool) (caller : AccountInfo)
    (data_fee : Nat) : Outcome Nat :=
  if env.tx.optimism.source_hash.isSome then .ok caller.balance else
  match (match l1_block_info with
         | some lb => Except.ok lb
         | none => fetch) with
  | .error e => .err (.database e)
  | .ok lb =>
    if !env.cfg.eip3607_disabled && (!code_empty && !code_eip7702) then
      .err (.transaction .rejectCallerWithCode)
    else
      match (match env.tx.nonce with
             | some t =>
               if t > caller.nonce then
                 some (TxErr.nonceTooHigh t caller.nonce)
               else if t < caller.nonce then
                 some (TxErr.nonceTooLow t caller.nonce)
               else none
             | none => none) with
      | some e => .err (.transaction e)
      | none =>
        match env.tx.optimism.enveloped_tx with
        | none => .err (.custom "[OPTIMISM] Failed to load enveloped transaction.")
        | some _ =>
          match balance_check_val spec env lb data_fee with
          | none => .err (.transaction .overflowPaymentInTransaction)
          | some balance_check =>
            if balance_check > caller.balance then
              if env.cfg.balance_check_disabled then
                .ok balance_check
              else
                .err (.transaction (.lackOfFundForMaxFee balance_check caller.balance))
            else
              .ok caller.balance

/-! ## Pre-execution — deduct caller -/

/-- Modelled from the spec: the mainnet `deduct_caller_inner` (outside
`src/`) subtracts the base deduction (`gas_limit·gas_price` plus blob fee
plus `value`, per the base EVM's policy), here represented by the amount
`baseDeduction` it subtracts from the caller's balance (truncated `Nat`
subtraction models the unsigned saturating subtraction). -/
def deduct_caller_inner (baseDeduction : Nat) (caller : AccountInfo) :
    AccountInfo :=
  { caller with balance := caller.balance - baseDeduction }

/-- Embedding of `deduct_caller` (handler_register.rs lines 326-380): credit
the mint when present, run the base `deduct_caller_inner`, then for
non-deposits subtract the L1 cost and the operator fee with saturating
subtraction.  Dereferencing an absent `l1_block_info` is an
`Option::expect` in the source, modelled as a panic. -/
def deduct_caller (env : Env) (l1_block_info : Option L1BlockInfo)
    (baseDeduction : Nat) (caller0 : AccountInfo) : Outcome AccountInfo :=
  let caller1 := match env.tx.optimism.mint with
    | some mint => { caller0 with balance := addW caller0.balance mint }
    | none => caller0
  let caller2 := deduct_caller_inner baseDeduction caller1
  if env.tx.optimism.source_hash.isNone then
    match env.tx.optimism.enveloped_tx with
    | none => .err (.custom "[OPTIMISM] Failed to load enveloped transaction.")
    | some _ =>
      match l1_block_info with
      | none => .panic "L1BlockInfo should be loaded"
      | some l1_block =>
        let caller3 := { caller2 with
          balance := caller2.balance - l1_block.tx_l1_cost }
        let caller4 := { caller3 with
          balance := caller3.balance - l1_block.operator_fee_charge env.tx.gas_limit }
        .ok caller4
  else
    .ok caller2

/-! ## Post-execution — reimburse caller -/

/-- Modelled from the spec: the mainnet `reimburse_caller` (outside `src/`)
credits the caller by `remaining · effective_gas_price`. -/
def mainnet_reimburse_caller (effective_gas_price : Nat) (gas : Gas)
    (caller : AccountInfo) : AccountInfo :=
  { caller with balance := addW caller.balance (gas.remaining * effective_gas_price) }

/-- Embedding of `reimburse_caller` (handler_register.rs lines 278-308):
base reimbursement, then for non-deposits an additional saturating credit
of the operator-fee refund.  Dereferencing an absent `l1_block_info` is an
`Option::expect` in the source, modelled as a panic. -/
def reimburse_caller (env : Env) (l1_block_info : Option L1BlockInfo)
    (effective_gas_price : Nat) (gas : Gas) (caller0 : AccountInfo) :
    Outcome AccountInfo :=
  let caller1 := mainnet_reimburse_caller effective_gas_price gas caller0
  if env.tx.optimism.source_hash.isNone then
    match l1_block_info with
    | none => .panic "L1BlockInfo should be loaded"
    | some l1 =>
      .ok { caller1 with balance := satAdd caller1.balance l1.operator_fee_refund }
  else
    .ok caller1

/-! ## Post-execution — reward beneficiary -/

/-- A fee-vault account: balance plus the touched status flag. -/
structure VaultAccount where
  balance : Nat
  touched : Bool
  deriving Repr, DecidableEq

/-- The account state `reward_beneficiary` acts on: the coinbase balance
and the three fee vaults. -/
structure RewardState where
  coinbase : Nat
  l1_fee_vault : VaultAccount
  base_fee_vault : VaultAccount
  operator_fee_vault : VaultAccount
  deriving Repr, DecidableEq

/-- Modelled from the spec: the mainnet `reward_beneficiary` (outside
`src/`) credits the coinbase with the priority-fee reward, represented by
the amount `baseReward`. -/
def mainnet_reward_beneficiary (baseReward : Nat) (st : RewardState) :
    RewardState :=
  { st with coinbase := addW st.coinbase baseReward }

/-- Embedding of `reward_beneficiary` (handler_register.rs lines 384-452).
Deposits credit nothing.  For non-deposits: delegate the coinbase reward to
the base EVM, then load, mark touched and credit the three vaults.
`used` models `gas.spent() - gas.refunded() as u64` (faithful for
`refunded` in `[0, spent]`, the range `set_final_refund` guarantees). -/
def reward_beneficiary (env : Env) (l1_block_info : Option L1BlockInfo)
    (baseReward : Nat) (gas : Gas) (st0 : RewardState) : Outcome RewardState :=
  let is_deposit := env.tx.optimism.source_hash.isSome
  let st1 := if !is_deposit then mainnet_reward_beneficiary baseReward st0 else st0
  if !is_deposit then
    match l1_block_info with
    | none => .err (.custom "[OPTIMISM] Failed to load L1 block information.")
    | some lb =>
      match env.tx.optimism.enveloped_tx with
      | none => .err (.custom "[OPTIMISM] Failed to load enveloped transaction.")
      | some _ =>
        let used := gas.spent - gas.refunded.toNat
        let l1_cost := lb.tx_l1_cost
        let operator_fee_cost := lb.operator_fee_charge used
        let st2 := { st1 with l1_fee_vault :=
          { balance := addW st1.l1_fee_vault.balance l1_cost, touched := true } }
        let st3 := { st2 with base_fee_vault :=
          { balance := addW st2.base_fee_vault.balance (env.block.basefee * used % U256MOD),
            touched := true } }
        let st4 := { st3 with operator_fee_vault :=
          { balance := addW st3.operator_fee_vault.balance operator_fee_cost,
            touched := true } }
        .ok st4
  else
    .ok st1

/-! ## Post-execution — end -/

/-- Halt reasons the handler produces or inspects. -/
inductive HaltReason
  | failedDeposit
  | other (n : Nat)
  deriving Repr, DecidableEq

/-- Execution results assembled by the pipeline. -/
inductive ExecutionResult
  | success (gas_used : Nat)
  | revert (gas_used : Nat)
  | halt (reason : HaltReason) (gas_used : Nat)
  deriving Repr, DecidableEq

/-- A pipeline outcome: result plus the state-change map (an association
list of address ↦ account). -/
structure ResultAndState where
  result : ExecutionResult
  state : List (Nat × Account)
  deriving Repr, DecidableEq

/-- Embedding of `end` (handler_register.rs lines 478-542).  `db_basic` is
the raw database read `context.evm.db.basic(caller)` (bypassing the
journal).  A failed deposit (transaction-class error with `source_hash`
set) is rewritten into `Halt { FailedDeposit }` with the caller's nonce
bumped and the mint persisted; every other error propagates unchanged. -/
def end_handler (spec : SpecF) (env : Env)
    (db_basic : Except Nat (Option AccountInfo))
    (evm_output : Except EvmErr ResultAndState) :
    Except EvmErr ResultAndState :=
  match evm_output with
  | .ok r => .ok r
  | .error err =>
    let is_tx_err := match err with
      | .transaction _ => true
      | _ => false
    if is_tx_err && env.tx.optimism.source_hash.isSome then
      let caller := env.tx.caller
      let info0 := match db_basic with
        | .ok (some i) => i
        | .ok none => ⟨0, 0⟩
        | .error _ => ⟨0, 0⟩
      let acc : Account :=
        { info :=
            { nonce := satAdd64 info0.nonce 1,
              balance := satAdd info0.balance (env.tx.optimism.mint.getD 0) },
          touched := true }
      let state := [(caller, acc)]
      let is_system_tx := env.tx.optimism.is_system_transaction.getD false
      let gas_used := if spec.regolith || !is_system_tx then env.tx.gas_limit else 0
      .ok { result := .halt .failedDeposit gas_used, state := state }
    else
      .error err

/-! ## Sample environments for concrete evaluation -/

/-- A non-deposit sample environment (envelope present, mint present). -/
def envND : Env :=
  { cfg := ⟨false, false, false⟩, block := ⟨7⟩,
    tx := { caller := 1, gas_limit := 100, gas_price := 2, value := 3,
            nonce := none,
            optimism := { source_hash := none, mint := some 10,
                          is_system_transaction := none,
                          enveloped_tx := some [] } } }

/-- A deposit sample environment (non-system). -/
def envDep : Env :=
  { cfg := ⟨false, false, false⟩, block := ⟨7⟩,
    tx := { caller := 1, gas_limit := 100, gas_price := 2, value := 3,
            nonce := none,
            optimism := { source_hash := some 5, mint := some 10,
                          is_system_transaction := none,
                          enveloped_tx := none } } }

/-- A system deposit sample environment. -/
def envDepSys : Env :=
  { cfg := ⟨false, false, false⟩, block := ⟨7⟩,
    tx := { caller := 1, gas_limit := 100, gas_price := 2, value := 3,
            nonce := none,
            optimism := { source_hash := some 5, mint := some 10,
                          is_system_transaction := some true,
                          enveloped_tx := none } } }

/-- A non-deposit environment carrying the system-transaction flag. -/
def envSysNoDep : Env :=
  { cfg := ⟨false, false, false⟩, block := ⟨7⟩,
    tx := { caller := 1, gas_limit := 100, gas_price := 2, value := 3,
            nonce := none,
            optimism := { source_hash := none, mint := none,
                          is_system_transaction := some true,
                          enveloped_tx := some [] } } }

/-- A sample `L1BlockInfo` with small concrete costs. -/
def lbSample : L1BlockInfo :=
  { tx_l1_cost := 5, operator_fee_charge := fun g => g / 10,
    operator_fee_refund := 4 }

/-! ## C1 — last_frame_return gas finalization -/

/-- C1: `last_frame_return` overwrites the frame gas with
`Gas::new_spent(tx_gas_limit)` and then: on an Ok-family result it restores
the saved `remaining` and re-records the saved `refunded` when the tx is
not a deposit or Regolith is active; a pre-Regolith system deposit gets the
full limit restored (spent 0, remaining = gas_limit); a pre-Regolith
non-system deposit stays fully spent (spent = gas_limit, remaining 0,
refunded 0).  On Revert it restores `remaining` (refunds dropped) exactly
when not-deposit-or-Regolith, else stays fully spent; on Halt it always
stays fully spent. -/
theorem C1_last_frame_return_cases (spec : SpecF) (env : Env) (ir : IResult)
    (g0 : Gas) :
    (ir = .ok →
      ((env.tx.optimism.source_hash.isSome = false ∨ spec.regolith = true) →
        last_frame_return spec env ir g0 =
          ⟨env.tx.gas_limit, g0.remaining, g0.refunded⟩)
      ∧ (env.tx.optimism.source_hash.isSome = true → spec.regolith = false →
          env.tx.optimism.is_system_transaction.getD false = true →
          last_frame_return spec env ir g0 =
            ⟨env.tx.gas_limit, env.tx.gas_limit, 0⟩)
      ∧ (env.tx.optimism.source_hash.isSome = true → spec.regolith = false →
          env.tx.optimism.is_system_transaction.getD false = false →
          last_frame_return spec env ir g0 = ⟨env.tx.gas_limit, 0, 0⟩))
  ∧ (ir = .revert →
      ((env.tx.optimism.source_hash.isSome = false ∨ spec.regolith = true) →
        last_frame_return spec env ir g0 = ⟨env.tx.gas_limit, g0.remaining, 0⟩)
      ∧ (env.tx.optimism.source_hash.isSome = true → spec.regolith = false →
        last_frame_return spec env ir g0 = ⟨env.tx.gas_limit, 0, 0⟩))
  ∧ (ir = .halt →
      last_frame_return spec env ir g0 = ⟨env.tx.gas_limit, 0, 0⟩) := by
  refine ⟨?_, ?_, ?_⟩
  · rintro rfl
    refine ⟨?_, ?_, ?_⟩
    · rintro (h | h) <;>
        simp [last_frame_return, Gas.new_spent, Gas.erase_cost, Gas.record_refund, h]
    · intro h1 h2 h3
      simp [last_frame_return, Gas.new_spent, Gas.erase_cost, Gas.record_refund,
        h1, h2, h3]
    · intro h1 h2 h3
      simp [last_frame_return, Gas.new_spent, Gas.erase_cost, Gas.record_refund,
        h1, h2, h3]
  · rintro rfl
    refine ⟨?_, ?_⟩
    · rintro (h | h) <;>
        simp [last_frame_return, Gas.new_spent, Gas.erase_cost, h]
    · intro h1 h2
      simp [last_frame_return, Gas.new_spent, Gas.erase_cost, h1, h2]
  · rintro rfl
    simp [last_frame_return, Gas.new_spent]

/-- C1 witness: a pre-Regolith (Bedrock) system deposit on success reports
zero gas used: remaining is restored to the full limit 100. -/
theorem C1_last_frame_return_cases_witness :
    last_frame_return ⟨false, true, false⟩ envDepSys .ok ⟨90, 90, 0⟩ =
      ⟨100, 100, 0⟩ := by
  have h := C1_last_frame_return_cases ⟨false, true, false⟩ envDepSys .ok ⟨90, 90, 0⟩
  exact ((h.1 rfl).2.1 (by decide) rfl (by decide)).trans (by decide)

/-! ## C8 — refund recording and finalization -/

/-- C8: `refund` records the EIP-7702 refund, then finalizes unless the cfg
flag disables refunds or the tx is a pre-Regolith deposit; for a non-deposit
with refunds enabled the final `refunded` is
`min(recorded_refund, spent / (5 if London else 2))`. -/
theorem C8_refund_characterization (spec : SpecF) (env : Env) (gas : Gas)
    (e : Int) :
    (refund spec env gas e =
      if env.cfg.gas_refund_disabled
          || (env.tx.optimism.source_hash.isSome && !spec.regolith) then
        gas.record_refund e
      else
        (gas.record_refund e).set_final_refund spec.london)
  ∧ (env.tx.optimism.source_hash = none →
      env.cfg.gas_refund_disabled = false →
      (refund spec env gas e).refunded =
        min (gas.refunded + e)
          ((gas.spent / (if spec.london then 5 else 2) : Nat) : Int)) := by
  constructor
  · unfold refund
    rcases h : (env.cfg.gas_refund_disabled
        || (env.tx.optimism.source_hash.isSome && !spec.regolith)) with _ | _ <;>
      simp [h]
  · intro h1 h2
    simp [refund, h1, h2, Gas.set_final_refund, Gas.record_refund, Gas.spent]

/-- C8 witness: non-deposit, refunds enabled, London active, recorded
refund 20 on spent 10 is capped at 10/5 = 2. -/
theorem C8_refund_characterization_witness :
    (refund ⟨true, true, false⟩ envND ⟨100, 90, 20⟩ 0).refunded = 2 := by
  have h := (C8_refund_characterization ⟨true, true, false⟩ envND
    ⟨100, 90, 20⟩ 0).2 rfl rfl
  exact h.trans (by decide)

/-! ## C3 — deduct_caller balance flow -/

/-- C3: `deduct_caller` first credits the mint whenever present (regardless
of transaction kind), then applies the base deduction; a deposit subtracts
nothing further (so with zero base deduction the balance is `b + m`), while
a non-deposit additionally subtracts the L1 cost and the operator fee with
saturating (truncated) subtraction. -/
theorem C3_deduct_caller_balance (env : Env) (l1 : Option L1BlockInfo)
    (lb : L1BlockInfo) (baseDeduction m : Nat) (caller : AccountInfo)
    (hm : env.tx.optimism.mint = some m)
    (hov : caller.balance + m < U256MOD) :
    (env.tx.optimism.source_hash.isSome = true →
      deduct_caller env l1 baseDeduction caller =
        .ok ⟨caller.balance + m - baseDeduction, caller.nonce⟩)
  ∧ (∀ ev, env.tx.optimism.source_hash = none →
      env.tx.optimism.enveloped_tx = some ev →
      deduct_caller env (some lb) baseDeduction caller =
        .ok ⟨caller.balance + m - baseDeduction - lb.tx_l1_cost
              - lb.operator_fee_charge env.tx.gas_limit, caller.nonce⟩) := by
  constructor
  · intro hdep
    rcases Option.isSome_iff_exists.mp hdep with ⟨v, hv⟩
    simp [deduct_caller, deduct_caller_inner, addW, hm, hv,
      Nat.mod_eq_of_lt hov]
  · intro ev h1 h2
    simp [deduct_caller, deduct_caller_inner, addW, hm, h1, h2,
      Nat.mod_eq_of_lt hov]

/-- C3 witness: deposit with balance 1000 and mint 10 and zero base
deduction ends at 1010; the non-deposit branch on the sample block info
ends at `1000 + 10 - 0 - 5 - 10 = 995`. -/
theorem C3_deduct_caller_balance_witness :
    deduct_caller envDep none 0 ⟨1000, 0⟩ = .ok ⟨1010, 0⟩ ∧
    deduct_caller envND (some lbSample) 0 ⟨1000, 0⟩ = .ok ⟨995, 0⟩ := by
  constructor
  · exact (C3_deduct_caller_balance envDep none lbSample 0 10 ⟨1000, 0⟩ rfl
      (by norm_num [U256MOD])).1 rfl
  · have h := (C3_deduct_caller_balance envND (some lbSample) lbSample 0 10
      ⟨1000, 0⟩ rfl (by norm_num [U256MOD])).2 [] rfl rfl
    exact h.trans (by norm_num [lbSample, envND])

/-! ## C4 — reward_beneficiary credits -/

/-- C4: `reward_beneficiary` credits nothing for a deposit; for a
non-deposit, with `used = spent - refunded`, it applies the base coinbase
reward and then credits the L1 fee vault by `tx_l1_cost`, the base fee
vault by `basefee · used` and the operator fee vault by
`operator_fee_charge(used)`, marking all three vaults touched. -/
theorem C4_reward_beneficiary_credits (env : Env) (l1 : Option L1BlockInfo)
    (lb : L1BlockInfo) (baseReward : Nat) (gas : Gas) (st : RewardState)
    (u : Nat) (hu : gas.refunded = (u : Int)) :
    (env.tx.optimism.source_hash.isSome = true →
      reward_beneficiary env l1 baseReward gas st = .ok st)
  ∧ (∀ ev, env.tx.optimism.source_hash = none →
      env.tx.optimism.enveloped_tx = some ev →
      st.coinbase + baseReward < U256MOD →
      st.l1_fee_vault.balance + lb.tx_l1_cost < U256MOD →
      env.block.basefee * (gas.spent - u) < U256MOD →
      st.base_fee_vault.balance + env.block.basefee * (gas.spent - u) < U256MOD →
      st.operator_fee_vault.balance + lb.operator_fee_charge (gas.spent - u)
        < U256MOD →
      reward_beneficiary env (some lb) baseReward gas st =
        .ok { coinbase := st.coinbase + baseReward,
              l1_fee_vault := ⟨st.l1_fee_vault.balance + lb.tx_l1_cost, true⟩,
              base_fee_vault :=
                ⟨st.base_fee_vault.balance
                  + env.block.basefee * (gas.spent - u), true⟩,
              operator_fee_vault :=
                ⟨st.operator_fee_vault.balance
                  + lb.operator_fee_charge (gas.spent - u), true⟩ }) := by
  constructor
  · intro hdep
    cases h : env.tx.optimism.source_hash with
    | none => rw [h] at hdep; simp at hdep
    | some v => simp [reward_beneficiary, h]
  · intro ev h1 h2 hb1 hb2 hb3 hb4 hb5
    simp only [reward_beneficiary, mainnet_reward_beneficiary, h1, h2, hu,
      Option.isSome_none, Bool.not_false, if_pos, Int.toNat_ofNat, addW,
      Nat.mod_eq_of_lt hb1, Nat.mod_eq_of_lt hb3]
    rw [Nat.mod_eq_of_lt hb2, Nat.mod_eq_of_lt hb4, Nat.mod_eq_of_lt hb5]

/-- C4 witness: on the sample non-deposit env (basefee 7) with spent 10,
refunded 2, base reward 11: used = 8, L1 vault +5, base vault +56,
operator vault +0 (8/10), all touched; and a deposit credits nothing. -/
theorem C4_reward_beneficiary_credits_witness :
    reward_beneficiary envND (some lbSample) 11 ⟨100, 90, 2⟩
        ⟨1, ⟨2, false⟩, ⟨3, false⟩, ⟨4, false⟩⟩ =
      .ok ⟨12, ⟨7, true⟩, ⟨59, true⟩, ⟨4, true⟩⟩ ∧
    reward_beneficiary envDep none 11 ⟨100, 90, 2⟩
        ⟨1, ⟨2, false⟩, ⟨3, false⟩, ⟨4, false⟩⟩ =
      .ok ⟨1, ⟨2, false⟩, ⟨3, false⟩, ⟨4, false⟩⟩ := by
  constructor
  · have h := (C4_reward_beneficiary_credits envND (some lbSample) lbSample 11
      ⟨100, 90, 2⟩ ⟨1, ⟨2, false⟩, ⟨3, false⟩, ⟨4, false⟩⟩ 2 rfl).2 [] rfl rfl
      (by norm_num [U256MOD]) (by norm_num [lbSample, U256MOD])
      (by norm_num [envND, Gas.spent, U256MOD])
      (by norm_num [envND, Gas.spent, U256MOD])
      (by norm_num [lbSample, Gas.spent, U256MOD])
    exact h.trans (by norm_num [envND, lbSample, Gas.spent])
  · exact (C4_reward_beneficiary_credits envDep none lbSample 11 ⟨100, 90, 2⟩
      ⟨1, ⟨2, false⟩, ⟨3, false⟩, ⟨4, false⟩⟩ 2 rfl).1 rfl

/-! ## C6 — deposit validation bypass -/

/-- C6: when `source_hash` is set, `validate_env` returns Ok regardless of
the block-env and tx-env validation outcomes, and
`validate_tx_against_state` returns Ok immediately (balance untouched)
regardless of the database fetch outcome, the caller's code, nonce and
balance, and the cfg flags. -/
theorem C6_deposit_validation_bypass (spec : SpecF) (env : Env)
    (blockV txV : Option EvmErr) (l1 : Option L1BlockInfo)
    (fetch : Except Nat L1BlockInfo) (code_empty code_eip7702 : Bool)
    (caller : AccountInfo) (data_fee : Nat)
    (h : env.tx.optimism.source_hash.isSome = true) :
    validate_env spec env blockV txV = .ok ()
  ∧ validate_tx_against_state spec env l1 fetch code_empty code_eip7702
      caller data_fee = .ok caller.balance := by
  constructor
  · simp [validate_env, h]
  · simp [validate_tx_against_state, h]

/-- C6 witness: a deposit env passes `validate_env` even when both external
validators fail, and passes `validate_tx_against_state` even when the
database fetch fails and the account has code, wrong nonce and no funds. -/
theorem C6_deposit_validation_bypass_witness :
    validate_env ⟨true, true, true⟩ envDep
        (some (.transaction (.other 0))) (some (.transaction (.other 1))) =
      .ok ()
  ∧ validate_tx_against_state ⟨true, true, true⟩ envDep none (.error 9)
      false false ⟨0, 42⟩ 0 = .ok 0 := by
  exact C6_deposit_validation_bypass ⟨true, true, true⟩ envDep
    (some (.transaction (.other 0))) (some (.transaction (.other 1)))
    none (.error 9) false false ⟨0, 42⟩ 0 rfl

/-! ## C7 — system-transaction rule (corrected) -/

/-- C7 counterexample: the claim quantifies over every env with the system
flag set and no source hash, but `validate_env` validates the block
environment first: when that validation fails (blockV = some error), the
Bedrock case does not return Ok, and the Regolith case does not return
`DepositSystemTxPostRegolith`. -/
theorem C7_system_tx_counterexample :
    validate_env ⟨false, true, false⟩ envSysNoDep
        (some (.transaction (.other 0))) none ≠ .ok ()
  ∧ validate_env ⟨true, true, false⟩ envSysNoDep
        (some (.transaction (.other 0))) none ≠
      .err (.transaction .depositSystemTxPostRegolith) := by
  constructor <;> decide

/-- C7 amended: for every env with `is_system_transaction = Some(true)` and
`source_hash = None`, provided block-env validation succeeds: Regolith
active ⇒ `DepositSystemTxPostRegolith`; with only Bedrock active and tx-env
validation also succeeding ⇒ Ok. -/
theorem C7_system_tx_rule (spec : SpecF) (env : Env) (txV : Option EvmErr)
    (hsys : env.tx.optimism.is_system_transaction = some true)
    (hsrc : env.tx.optimism.source_hash = none) :
    (spec.regolith = true →
      validate_env spec env none txV =
        .err (.transaction .depositSystemTxPostRegolith))
  ∧ (spec.regolith = false →
      validate_env spec env none none = .ok ()) := by
  constructor
  · intro hr
    simp [validate_env, hsys, hsrc, hr]
  · intro hr
    simp [validate_env, hsys, hsrc, hr]

/-- C7 witness: the concrete system-flagged non-deposit env is rejected
with `DepositSystemTxPostRegolith` under Regolith and accepted under
Bedrock when the external validations pass. -/
theorem C7_system_tx_rule_witness :
    validate_env ⟨true, true, false⟩ envSysNoDep none none =
      .err (.transaction .depositSystemTxPostRegolith)
  ∧ validate_env ⟨false, true, false⟩ envSysNoDep none none = .ok () := by
  constructor
  · exact (C7_system_tx_rule ⟨true, true, false⟩ envSysNoDep none rfl rfl).1 rfl
  · exact (C7_system_tx_rule ⟨false, true, false⟩ envSysNoDep none rfl rfl).2 rfl

/-! ## C5 — balance check in validate_tx_against_state -/

/-- C5: for a non-deposit passing the earlier checks,
`validate_tx_against_state` computes
`balance_check = gas_limit·gas_price + value + tx_l1_cost +
operator_fee_charge (+ max blob data fee under Cancun)` with checked
arithmetic, failing with `OverflowPaymentInTransaction` on overflow;
a shortfall fails with `LackOfFundForMaxFee{fee, balance}` unless
`balance_check_disabled` is set, in which case the in-memory balance is
raised to the check and validation returns Ok. -/
theorem C5_validate_tx_balance_check (spec : SpecF) (env : Env)
    (lb : L1BlockInfo) (fetch : Except Nat L1BlockInfo)
    (code_empty code_eip7702 : Bool) (caller : AccountInfo)
    (data_fee : Nat) (ev : List Nat) (bc : Nat)
    (hsrc : env.tx.optimism.source_hash = none)
    (h3607 : env.cfg.eip3607_disabled = true ∨ code_empty = true
      ∨ code_eip7702 = true)
    (hnonce : env.tx.nonce = none ∨ env.tx.nonce = some caller.nonce)
    (henv : env.tx.optimism.enveloped_tx = some ev) :
    (balance_check_val spec env lb data_fee = none →
      validate_tx_against_state spec env (some lb) fetch code_empty
          code_eip7702 caller data_fee =
        .err (.transaction .overflowPaymentInTransaction))
  ∧ (balance_check_val spec env lb data_fee = some bc →
      bc > caller.balance → env.cfg.balance_check_disabled = false →
      validate_tx_against_state spec env (some lb) fetch code_empty
          code_eip7702 caller data_fee =
        .err (.transaction (.lackOfFundForMaxFee bc caller.balance)))
  ∧ (balance_check_val spec env lb data_fee = some bc →
      bc > caller.balance → env.cfg.balance_check_disabled = true →
      validate_tx_against_state spec env (some lb) fetch code_empty
          code_eip7702 caller data_fee = .ok bc)
  ∧ (balance_check_val spec env lb data_fee = some bc →
      ¬ bc > caller.balance →
      validate_tx_against_state spec env (some lb) fetch code_empty
          code_eip7702 caller data_fee = .ok caller.balance)
  ∧ (env.tx.gas_limit * env.tx.gas_price + env.tx.value + lb.tx_l1_cost
        + lb.operator_fee_charge env.tx.gas_limit
        + (if spec.cancun then data_fee else 0) < U256MOD →
      balance_check_val spec env lb data_fee =
        some (env.tx.gas_limit * env.tx.gas_price + env.tx.value
          + lb.tx_l1_cost + lb.operator_fee_charge env.tx.gas_limit
          + (if spec.cancun then data_fee else 0))) := by
  have hred : validate_tx_against_state spec env (some lb) fetch code_empty
      code_eip7702 caller data_fee =
      (match balance_check_val spec env lb data_fee with
       | none => .err (.transaction .overflowPaymentInTransaction)
       | some b =>
         if b > caller.balance then
           if env.cfg.balance_check_disabled then .ok b
           else .err (.transaction (.lackOfFundForMaxFee b caller.balance))
         else .ok caller.balance) := by
    rcases h3607 with ha | ha | ha <;> rcases hnonce with hn | hn <;>
      simp [validate_tx_against_state, hsrc, henv, ha, hn]
  refine ⟨?_, ?_, ?_, ?_, ?_⟩
  · intro hbc
    rw [hred, hbc]
  · intro hbc hgt hdis
    rw [hred, hbc]
    simp [hgt, hdis]
  · intro hbc hgt hdis
    rw [hred, hbc]
    simp [hgt, hdis]
  · intro hbc hle
    rw [hred, hbc]
    simp [hle]
  · intro ht
    rcases hc : spec.cancun with _ | _
    · rw [hc] at ht
      simp only [Bool.false_eq_true, if_false, Nat.add_zero] at ht
      have h1 : env.tx.gas_limit * env.tx.gas_price < U256MOD := by omega
      have h2 : env.tx.gas_limit * env.tx.gas_price + env.tx.value
          < U256MOD := by omega
      have h3 : env.tx.gas_limit * env.tx.gas_price + env.tx.value
          + lb.tx_l1_cost < U256MOD := by omega
      simp [balance_check_val, checkedMul, checkedAdd, hc, h1, h2, h3, ht]
    · rw [hc] at ht
      simp only [if_true] at ht
      have h1 : env.tx.gas_limit * env.tx.gas_price < U256MOD := by omega
      have h2 : env.tx.gas_limit * env.tx.gas_price + env.tx.value
          < U256MOD := by omega
      have h3 : env.tx.gas_limit * env.tx.gas_price + env.tx.value
          + lb.tx_l1_cost < U256MOD := by omega
      have h4 : env.tx.gas_limit * env.tx.gas_price + env.tx.value
          + lb.tx_l1_cost + lb.operator_fee_charge env.tx.gas_limit
          < U256MOD := by omega
      simp [balance_check_val, checkedMul, checkedAdd, hc, h1, h2, h3, h4, ht]

/-- C5 witness: on the sample non-deposit env (gas_limit 100, gas_price 2,
value 3, L1 cost 5, operator fee 10, no Cancun) the balance check is 218; a
caller with balance 48 fails with `LackOfFundForMaxFee{218, 48}`, and with
the cfg override the balance is raised to 218. -/
theorem C5_validate_tx_balance_check_witness :
    balance_check_val ⟨true, true, false⟩ envND lbSample 0 = some 218
  ∧ validate_tx_against_state ⟨true, true, false⟩ envND (some lbSample)
      (.error 9) true false ⟨48, 0⟩ 0 =
      .err (.transaction (.lackOfFundForMaxFee 218 48)) := by
  have hbc : balance_check_val ⟨true, true, false⟩ envND lbSample 0 =
      some 218 := by
    have h := (C5_validate_tx_balance_check ⟨true, true, false⟩ envND lbSample
      (.error 9) true false ⟨48, 0⟩ 0 [] 218 rfl (Or.inr (Or.inl rfl))
      (Or.inl rfl) rfl).2.2.2.2 (by norm_num [envND, lbSample, U256MOD])
    exact h.trans (by norm_num [envND, lbSample])
  refine ⟨hbc, ?_⟩
  exact (C5_validate_tx_balance_check ⟨true, true, false⟩ envND lbSample
    (.error 9) true false ⟨48, 0⟩ 0 [] 218 rfl (Or.inr (Or.inl rfl))
    (Or.inl rfl) rfl).2.1 hbc (by norm_num) rfl

/-! ## C2 — end rewrites failed deposits -/

/-- C2: `end` returns Ok inputs as-is; for a transaction-class error on a
deposit it returns `Halt{FailedDeposit}` with `gas_used = gas_limit` when
Regolith is active or the tx is not a system transaction (else 0), and a
single-entry state mapping the caller to the raw-database account with
nonce incremented (saturating), balance increased by the mint (default 0,
saturating) and marked touched; every other error propagates unchanged. -/
theorem C2_end_deposit_failure (spec : SpecF) (env : Env)
    (db : Except Nat (Option AccountInfo)) (i : AccountInfo) (t : TxErr)
    (err : EvmErr) (r : ResultAndState) :
    (end_handler spec env db (.ok r) = .ok r)
  ∧ (env.tx.optimism.source_hash.isSome = true →
      end_handler spec env (.ok (some i)) (.error (.transaction t)) =
        .ok { result := .halt .failedDeposit
                (if spec.regolith
                    || !(env.tx.optimism.is_system_transaction.getD false)
                 then env.tx.gas_limit else 0),
              state := [(env.tx.caller,
                { info := { balance := satAdd i.balance
                              (env.tx.optimism.mint.getD 0),
                            nonce := satAdd64 i.nonce 1 },
                  touched := true })] })
  ∧ ((match err with | .transaction _ => false | _ => true) = true →
      end_handler spec env db (.error err) = .error err)
  ∧ (env.tx.optimism.source_hash = none →
      end_handler spec env db (.error err) = .error err) := by
  refine ⟨rfl, ?_, ?_, ?_⟩
  · intro hdep
    rcases Option.isSome_iff_exists.mp hdep with ⟨v, hv⟩
    simp [end_handler, hv]
  · intro hdisc
    cases err with
    | transaction t2 => simp at hdisc
    | database e => simp [end_handler]
    | custom s => simp [end_handler]
  · intro hsrc
    cases err <;> simp [end_handler, hsrc]

/-- C2 witness: a failed deposit (Regolith) with db account
balance 1000 / nonce 7 and mint 10 is rewritten to
`Halt{FailedDeposit, gas_used = 100}` with the caller at balance 1010,
nonce 8, touched; a database error propagates unchanged. -/
theorem C2_end_deposit_failure_witness :
    end_handler ⟨true, true, false⟩ envDep (.ok (some ⟨1000, 7⟩))
        (.error (.transaction (.other 3))) =
      .ok { result := .halt .failedDeposit 100,
            state := [(1, ⟨⟨1010, 8⟩, true⟩)] }
  ∧ end_handler ⟨true, true, false⟩ envDep (.ok (some ⟨1000, 7⟩))
      (.error (.database 9)) = .error (.database 9) := by
  constructor
  · have h := (C2_end_deposit_failure ⟨true, true, false⟩ envDep
      (.ok (some ⟨1000, 7⟩)) ⟨1000, 7⟩ (.other 3) (.database 9)
      ⟨.success 0, []⟩).2.1 rfl
    exact h.trans (by decide)
  · exact (C2_end_deposit_failure ⟨true, true, false⟩ envDep
      (.ok (some ⟨1000, 7⟩)) ⟨1000, 7⟩ (.other 3) (.database 9)
      ⟨.success 0, []⟩).2.2.1 rfl

/-! ## C10 — end swallows raw-database read failures -/

/-- C10: in the deposit-failure rewrite, a database error or an absent
account from the raw `db.basic` read is silently replaced by the default
empty account: `end` still returns `Ok(Halt{FailedDeposit})` with the
caller at nonce 1 and balance equal to the mint; the database error is
never propagated. -/
theorem C10_end_raw_db_default (spec : SpecF) (env : Env) (e : Nat)
    (t : TxErr)
    (hdep : env.tx.optimism.source_hash.isSome = true)
    (hm : env.tx.optimism.mint.getD 0 ≤ U256MAX) :
    (end_handler spec env (.error e) (.error (.transaction t)) =
      .ok { result := .halt .failedDeposit
              (if spec.regolith
                  || !(env.tx.optimism.is_system_transaction.getD false)
               then env.tx.gas_limit else 0),
            state := [(env.tx.caller,
              { info := { balance := env.tx.optimism.mint.getD 0,
                          nonce := 1 }, touched := true })] })
  ∧ (end_handler spec env (.ok none) (.error (.transaction t)) =
      .ok { result := .halt .failedDeposit
              (if spec.regolith
                  || !(env.tx.optimism.is_system_transaction.getD false)
               then env.tx.gas_limit else 0),
            state := [(env.tx.caller,
              { info := { balance := env.tx.optimism.mint.getD 0,
                          nonce := 1 }, touched := true })] }) := by
  rcases Option.isSome_iff_exists.mp hdep with ⟨v, hv⟩
  have h1 : satAdd 0 (env.tx.optimism.mint.getD 0) =
      env.tx.optimism.mint.getD 0 := by
    simp only [satAdd]
    omega
  have h2 : satAdd64 0 1 = 1 := by
    simp only [satAdd64, U64MAX]
    omega
  constructor <;> simp [end_handler, hv, h1, h2]

/-- C10 witness: with a failing raw database read (and with an absent
account) the failed-deposit rewrite still succeeds, putting the caller at
nonce 1 and balance 10 (the mint). -/
theorem C10_end_raw_db_default_witness :
    end_handler ⟨true, true, false⟩ envDep (.error 9)
        (.error (.transaction (.other 3))) =
      .ok { result := .halt .failedDeposit 100,
            state := [(1, ⟨⟨10, 1⟩, true⟩)] } := by
  have h := (C10_end_raw_db_default ⟨true, true, false⟩ envDep 9 (.other 3)
    rfl (by norm_num [envDep, U256MAX, U256MOD])).1
  exact h.trans (by decide)

/-! ## C9 — missing L1BlockInfo handling (corrected) -/

/-- C9 counterexample: with `l1_block_info = None` on a non-deposit,
`deduct_caller` and `reimburse_caller` do not return an `EVMError::Custom`:
they abort via `Option::expect` (modelled as a panic). -/
theorem C9_missing_l1_counterexample :
    (deduct_caller envND none 0 ⟨0, 0⟩).isCustomErr = false
  ∧ deduct_caller envND none 0 ⟨0, 0⟩ = .panic "L1BlockInfo should be loaded"
  ∧ (reimburse_caller envND none 0 ⟨100, 90, 0⟩ ⟨0, 0⟩).isCustomErr = false
  ∧ reimburse_caller envND none 0 ⟨100, 90, 0⟩ ⟨0, 0⟩ =
      .panic "L1BlockInfo should be loaded" := by
  exact ⟨rfl, rfl, rfl, rfl⟩

/-- C9 amended: on a non-deposit with `l1_block_info = None`, only
`reward_beneficiary` returns a typed internal Custom error;
`deduct_caller` and `reimburse_caller` abort via `Option::expect`
(a panic, not a returned error). -/
theorem C9_missing_l1_behavior (env : Env)
    (baseDeduction effective_gas_price baseReward : Nat) (gas : Gas)
    (caller : AccountInfo) (st : RewardState) (ev : List Nat)
    (hsrc : env.tx.optimism.source_hash = none)
    (henv : env.tx.optimism.enveloped_tx = some ev) :
    deduct_caller env none baseDeduction caller =
      .panic "L1BlockInfo should be loaded"
  ∧ reimburse_caller env none effective_gas_price gas caller =
      .panic "L1BlockInfo should be loaded"
  ∧ reward_beneficiary env none baseReward gas st =
      .err (.custom "[OPTIMISM] Failed to load L1 block information.") := by
  refine ⟨?_, ?_, ?_⟩
  · simp [deduct_caller, hsrc, henv]
  · simp [reimburse_caller, hsrc]
  · simp [reward_beneficiary, hsrc]

/-- C9 witness: the concrete non-deposit sample env exhibits the two panics
and the one Custom error. -/
theorem C9_missing_l1_behavior_witness :
    deduct_caller envND none 3 ⟨50, 0⟩ = .panic "L1BlockInfo should be loaded"
  ∧ reward_beneficiary envND none 3 ⟨100, 90, 0⟩
        ⟨1, ⟨2, false⟩, ⟨3, false⟩, ⟨4, false⟩⟩ =
      .err (.custom "[OPTIMISM] Failed to load L1 block information.") := by
  have h := C9_missing_l1_behavior envND 3 0 3 ⟨100, 90, 0⟩ ⟨50, 0⟩
    ⟨1, ⟨2, false⟩, ⟨3, false⟩, ⟨4, false⟩⟩ [] rfl rfl
  exact ⟨h.1, h.2.2⟩

end OpHandler
